import Mathlib

/-!
Verification of the drawing-primitive binding layer in
src/src/sdl2/gfx/primitives.rs.

The file shallowly embeds the pure, observable behaviour of the binding:
- the `ToColor` trait and its four impls (color packing / unpacking);
- every `DrawRenderer` method for `Canvas<T>`, each parameterized by the
  observable result of its single foreign call (the integer status the
  native primitive returns, and the native last-error string read by
  `get_error_as_error()` immediately after the call);
- the global font configuration wrappers `set_font` and
  `set_font_rotation`, modelled by the arguments they pass to the native
  configuration calls.

Machine integers are modelled as `Nat` / `Int` (with explicit reductions
modulo powers of two where the source casts); 8-bit channels as `Fin 256`;
Rust panics as distinguished outcome constructors (or `Option.none` for
`expect` on a conversion).
-/

namespace Gfx

/-- A channel 4-tuple `(r, g, b, a)` of bytes, the result type of
`ToColor::as_rgba`. -/
abbrev Rgba := Fin 256 × Fin 256 × Fin 256 × Fin 256

/-- `mem::transmute::<(u8, u8, u8, u8), u32>` on a little-endian target:
the first tuple field becomes the least significant byte of the packed
value.  This is the body of the default `ToColor::as_u32` method and of
the `(u8, u8, u8, u8)` impl. -/
def tuple_as_u32 (t : Rgba) : Nat :=
  t.1.val + 256 * t.2.1.val + 65536 * t.2.2.1.val + 16777216 * t.2.2.2.val

/-- `impl ToColor for (u8, u8, u8, u8)`: `as_rgba` returns `*self`. -/
def tuple_as_rgba (t : Rgba) : Rgba := t

/-- `impl ToColor for u32`: `as_u32` returns `*self`. -/
def u32_as_u32 (c : Nat) : Nat := c

/-- `impl ToColor for u32`: `as_rgba` is
`mem::transmute::<u32, (u8, u8, u8, u8)>`, the byte decomposition of the
packed value (least significant byte first, matching `tuple_as_u32`). -/
def u32_as_rgba (c : Nat) : Rgba :=
  (⟨c % 256, by omega⟩, ⟨c / 256 % 256, by omega⟩,
   ⟨c / 65536 % 256, by omega⟩, ⟨c / 16777216 % 256, by omega⟩)

/-- Modelled from the spec: the structured 4-channel color object
(`pixels::Color` of the surrounding crate, whose source is not under
src/) — "an explicit 4-channel color object"; its `rgba()` accessor
returns the four channel bytes in (r, g, b, a) order. -/
structure Color where
  r : Fin 256
  g : Fin 256
  b : Fin 256
  a : Fin 256

/-- Modelled from the spec: `pixels::Color::rgba()` returns the channels
in (r, g, b, a) order. -/
def Color.rgba (c : Color) : Rgba := (c.r, c.g, c.b, c.a)

/-- `impl ToColor for pixels::Color`: `as_rgba` is `self.rgba()`. -/
def color_as_rgba (c : Color) : Rgba := c.rgba

/-- `impl ToColor for pixels::Color` inherits the default `as_u32`:
`mem::transmute(self.as_rgba())`. -/
def color_as_u32 (c : Color) : Nat := tuple_as_u32 (color_as_rgba c)

/-- `num::traits::ToPrimitive::to_u32` for `isize`: `Some` exactly when
the value fits in a `u32`, `None` otherwise. -/
def isize_to_u32 (v : Int) : Option Nat :=
  if 0 ≤ v ∧ v < 4294967296 then some v.toNat else none

/-- `impl ToColor for isize`, `as_u32`:
`self.to_u32().expect("Can't convert to Color Type")`.
`none` models the `expect` panic on an out-of-range value. -/
def isize_as_u32 (v : Int) : Option Nat := isize_to_u32 v

/-- `impl ToColor for isize`, `as_rgba`:
`mem::transmute(self.to_u32().expect(..))`; `none` models the panic. -/
def isize_as_rgba (v : Int) : Option Rgba := (isize_to_u32 v).map u32_as_rgba

/-- The observable result of one foreign primitive call: the integer
status the native function returns, and the native library's
last-recorded diagnostic string as read by `get_error_as_error()`
immediately after the call. -/
structure NativeState where
  ret : Int
  lastError : String

/-- What a `DrawRenderer` method call does, observably: `Ok(())`,
`Err(..)` carrying the captured diagnostic string, or a panic at one of
the three panic sites of the file (`assert_eq!` on point-buffer lengths,
`unimplemented!()`, and `CString::new(..).unwrap()` on a string with an
interior NUL byte). -/
inductive Outcome where
  | success : Outcome
  | failure : String → Outcome
  | panicAssertEq : Outcome
  | panicUnimplemented : Outcome
  | panicNulError : Outcome
deriving DecidableEq

/-- `DrawRenderer::pixel`: one call to `pixelColor`, then
`if ret == 0 { Ok(()) } else { Err(get_error_as_error()) }`.
Throughout, `color` is the packed `as_u32`-normalized color argument. -/
def pixel (st : NativeState) (x y : Int) (color : Nat) : Outcome :=
  if st.ret = 0 then Outcome.success else Outcome.failure st.lastError

/-- `DrawRenderer::hline`: one call to `hlineColor`, status mapped as in
`pixel`. -/
def hline (st : NativeState) (x1 x2 y : Int) (color : Nat) : Outcome :=
  if st.ret = 0 then Outcome.success else Outcome.failure st.lastError

/-- `DrawRenderer::vline`: one call to `vlineColor`. -/
def vline (st : NativeState) (x y1 y2 : Int) (color : Nat) : Outcome :=
  if st.ret = 0 then Outcome.success else Outcome.failure st.lastError

/-- `DrawRenderer::rectangle`: one call to `rectangleColor`. -/
def rectangle (st : NativeState) (x1 y1 x2 y2 : Int) (color : Nat) : Outcome :=
  if st.ret = 0 then Outcome.success else Outcome.failure st.lastError

/-- `DrawRenderer::rounded_rectangle`: one call to
`roundedRectangleColor`. -/
def rounded_rectangle (st : NativeState) (x1 y1 x2 y2 rad : Int) (color : Nat) : Outcome :=
  if st.ret = 0 then Outcome.success else Outcome.failure st.lastError

/-- `DrawRenderer::box_`: one call to `boxColor`. -/
def box_ (st : NativeState) (x1 y1 x2 y2 : Int) (color : Nat) : Outcome :=
  if st.ret = 0 then Outcome.success else Outcome.failure st.lastError

/-- `DrawRenderer::rounded_box`: one call to `roundedBoxColor`. -/
def rounded_box (st : NativeState) (x1 y1 x2 y2 rad : Int) (color : Nat) : Outcome :=
  if st.ret = 0 then Outcome.success else Outcome.failure st.lastError

/-- `DrawRenderer::line`: one call to `lineColor`. -/
def line (st : NativeState) (x1 y1 x2 y2 : Int) (color : Nat) : Outcome :=
  if st.ret = 0 then Outcome.success else Outcome.failure st.lastError

/-- `DrawRenderer::aa_line`: one call to `aalineColor`. -/
def aa_line (st : NativeState) (x1 y1 x2 y2 : Int) (color : Nat) : Outcome :=
  if st.ret = 0 then Outcome.success else Outcome.failure st.lastError

/-- `DrawRenderer::thick_line`: one call to `thickLineColor` (`width` is
the `u8` line width). -/
def thick_line (st : NativeState) (x1 y1 x2 y2 : Int) (width : Nat) (color : Nat) : Outcome :=
  if st.ret = 0 then Outcome.success else Outcome.failure st.lastError

/-- `DrawRenderer::circle`: one call to `circleColor`. -/
def circle (st : NativeState) (x y rad : Int) (color : Nat) : Outcome :=
  if st.ret = 0 then Outcome.success else Outcome.failure st.lastError

/-- `DrawRenderer::aa_circle`: one call to `aacircleColor`. -/
def aa_circle (st : NativeState) (x y rad : Int) (color : Nat) : Outcome :=
  if st.ret = 0 then Outcome.success else Outcome.failure st.lastError

/-- `DrawRenderer::filled_circle`: one call to `filledCircleColor`. -/
def filled_circle (st : NativeState) (x y rad : Int) (color : Nat) : Outcome :=
  if st.ret = 0 then Outcome.success else Outcome.failure st.lastError

/-- `DrawRenderer::arc`: one call to `arcColor` (`start`/`end_` are the
angle arguments, `end` being a Lean keyword). -/
def arc (st : NativeState) (x y rad start end_ : Int) (color : Nat) : Outcome :=
  if st.ret = 0 then Outcome.success else Outcome.failure st.lastError

/-- `DrawRenderer::ellipse`: one call to `ellipseColor`. -/
def ellipse (st : NativeState) (x y rx ry : Int) (color : Nat) : Outcome :=
  if st.ret = 0 then Outcome.success else Outcome.failure st.lastError

/-- `DrawRenderer::aa_ellipse`: one call to `aaellipseColor`. -/
def aa_ellipse (st : NativeState) (x y rx ry : Int) (color : Nat) : Outcome :=
  if st.ret = 0 then Outcome.success else Outcome.failure st.lastError

/-- `DrawRenderer::filled_ellipse`: one call to `filledEllipseColor`. -/
def filled_ellipse (st : NativeState) (x y rx ry : Int) (color : Nat) : Outcome :=
  if st.ret = 0 then Outcome.success else Outcome.failure st.lastError

/-- `DrawRenderer::pie`: one call to `pieColor`. -/
def pie (st : NativeState) (x y rad start end_ : Int) (color : Nat) : Outcome :=
  if st.ret = 0 then Outcome.success else Outcome.failure st.lastError

/-- `DrawRenderer::filled_pie`: one call to `filledPieColor`. -/
def filled_pie (st : NativeState) (x y rad start end_ : Int) (color : Nat) : Outcome :=
  if st.ret = 0 then Outcome.success else Outcome.failure st.lastError

/-- `DrawRenderer::trigon`: one call to `trigonColor`. -/
def trigon (st : NativeState) (x1 y1 x2 y2 x3 y3 : Int) (color : Nat) : Outcome :=
  if st.ret = 0 then Outcome.success else Outcome.failure st.lastError

/-- `DrawRenderer::aa_trigon`: one call to `aatrigonColor`. -/
def aa_trigon (st : NativeState) (x1 y1 x2 y2 x3 y3 : Int) (color : Nat) : Outcome :=
  if st.ret = 0 then Outcome.success else Outcome.failure st.lastError

/-- `DrawRenderer::filled_trigon`: one call to `filledTrigonColor`. -/
def filled_trigon (st : NativeState) (x1 y1 x2 y2 x3 y3 : Int) (color : Nat) : Outcome :=
  if st.ret = 0 then Outcome.success else Outcome.failure st.lastError

/-- `DrawRenderer::polygon`: `assert_eq!(vx.len(), vy.len())`, then one
call to `polygonColor`.  The second component counts foreign calls
issued; on a length mismatch the `assert_eq!` panics before any call. -/
def polygon (st : NativeState) (vx vy : List Int) (color : Nat) : Outcome × Nat :=
  if vx.length = vy.length then
    (if st.ret = 0 then Outcome.success else Outcome.failure st.lastError, 1)
  else
    (Outcome.panicAssertEq, 0)

/-- `DrawRenderer::aa_polygon`: length assertion, then one call to
`aapolygonColor`. -/
def aa_polygon (st : NativeState) (vx vy : List Int) (color : Nat) : Outcome × Nat :=
  if vx.length = vy.length then
    (if st.ret = 0 then Outcome.success else Outcome.failure st.lastError, 1)
  else
    (Outcome.panicAssertEq, 0)

/-- `DrawRenderer::filled_polygon`: length assertion, then one call to
`filledPolygonColor`. -/
def filled_polygon (st : NativeState) (vx vy : List Int) (color : Nat) : Outcome × Nat :=
  if vx.length = vy.length then
    (if st.ret = 0 then Outcome.success else Outcome.failure st.lastError, 1)
  else
    (Outcome.panicAssertEq, 0)

/-- The opaque `surface::Surface` resource, used only by
`textured_polygon`, which never reads it. -/
structure Surface

/-- `DrawRenderer::textured_polygon`: the body is `unimplemented!()` —
an immediate explicit "not implemented" panic; no foreign call is ever
issued and no argument is read. -/
def textured_polygon (st : NativeState) (vx vy : List Int) (texture : Surface)
    (texture_dx texture_dy : Int) (color : Nat) : Outcome × Nat :=
  (Outcome.panicUnimplemented, 0)

/-- `DrawRenderer::bezier`: length assertion, then one call to
`bezierColor` with the smoothness parameter `s`. -/
def bezier (st : NativeState) (vx vy : List Int) (s : Int) (color : Nat) : Outcome × Nat :=
  if vx.length = vy.length then
    (if st.ret = 0 then Outcome.success else Outcome.failure st.lastError, 1)
  else
    (Outcome.panicAssertEq, 0)

/-- The cast `c as c_char` (with `c_char = i8`): Rust truncates the
char's Unicode scalar value to its low 8 bits and reinterprets them as a
signed byte. -/
def char_as_c_char (c : Nat) : Int :=
  if c % 256 < 128 then ((c % 256 : Nat) : Int) else ((c % 256 : Nat) : Int) - 256

/-- `DrawRenderer::character`: one call to `characterColor` with the
character argument `c as c_char` (`c` is the char's Unicode scalar
value).  Returns the status outcome together with the character argument
passed to the foreign call. -/
def character (st : NativeState) (x y : Int) (c : Nat) (color : Nat) : Outcome × Int :=
  (if st.ret = 0 then Outcome.success else Outcome.failure st.lastError, char_as_c_char c)

/-- `DrawRenderer::string`: `CString::new(s).unwrap()` panics exactly
when `s` has an interior NUL byte, before any foreign call; otherwise
one call to `stringColor` with a pointer to the `CString`'s
NUL-terminated buffer.  `s` is the UTF-8 byte content of the `&str`;
the second component is the list of byte buffers passed to foreign
calls. -/
def string (st : NativeState) (x y : Int) (s : List Nat) (color : Nat)
    : Outcome × List (List Nat) :=
  if 0 ∈ s then
    (Outcome.panicNulError, [])
  else
    (if st.ret = 0 then Outcome.success else Outcome.failure st.lastError, [s ++ [0]])

/-- The font bitmap pointer passed to `gfxPrimitivesSetFont`: either the
null pointer or the data pointer of the caller's byte slice. -/
inductive FontPtr where
  | null : FontPtr
  | data : List Nat → FontPtr
deriving DecidableEq

/-- `set_font`: `None` becomes `ptr::null()`, `Some(v)` becomes
`v.as_ptr()`; the triple `(pointer, cw, ch)` is passed unchanged to
`gfxPrimitivesSetFont`, which returns nothing.  The model returns the
passed triple as the observable effect. -/
def set_font (fontdata : Option (List Nat)) (cw ch : Nat) : FontPtr × Nat × Nat :=
  (match fontdata with
    | none => FontPtr.null
    | some v => FontPtr.data v,
   cw, ch)

/-- `set_font_rotation`: passes `rotation as u32` — an identity cast on
a `u32` argument, modelled by the explicit reduction modulo `2^32` — to
`gfxPrimitivesSetFontRotation`, which returns nothing.  The model
returns the value passed as the observable effect. -/
def set_font_rotation (rotation : Nat) : Nat := rotation % 4294967296

/-- The status contract of one primitive call: the method returns
success exactly when the native status is `0`, and on any nonzero
status it returns the error carrying the captured last-error string. -/
def statusOk (o : Outcome) (st : NativeState) : Prop :=
  (o = Outcome.success ↔ st.ret = 0) ∧
  (st.ret ≠ 0 → o = Outcome.failure st.lastError)

/-- C2: for every 4-tuple of channel bytes, the three supported color
forms denoting that color — the structured `pixels::Color` object, the
raw `(u8, u8, u8, u8)` tuple, and the packed `u32` built from the same
channels — produce the identical packed value through
`ToColor::as_u32`. -/
theorem C2_color_form_equivalence (r g b a : Fin 256) :
    color_as_u32 ⟨r, g, b, a⟩ = tuple_as_u32 (r, g, b, a) ∧
    u32_as_u32 (tuple_as_u32 (r, g, b, a)) = tuple_as_u32 (r, g, b, a) :=
  ⟨rfl, rfl⟩

/-- C9: packing and unpacking are mutually inverse — the `u32` impl's
`as_rgba` followed by the tuple impl's `as_u32` is the identity on
32-bit packed values, and the tuple impl's `as_u32` followed by the
`u32` impl's `as_rgba` is the identity on byte tuples. -/
theorem C9_pack_unpack_inverse (c : Nat) (t : Rgba) (hc : c < 4294967296) :
    tuple_as_u32 (u32_as_rgba c) = c ∧ u32_as_rgba (tuple_as_u32 t) = t := by
  obtain ⟨⟨r, hr⟩, ⟨g, hg⟩, ⟨b, hb⟩, ⟨a, ha⟩⟩ := t
  simp only [tuple_as_u32, u32_as_rgba, Prod.mk.injEq, Fin.mk.injEq]
  omega

theorem C9_pack_unpack_inverse_witness :
    tuple_as_u32 (u32_as_rgba 305419896) = 305419896 ∧
    u32_as_rgba (tuple_as_u32 (1, 2, 3, 4)) = (1, 2, 3, 4) :=
  C9_pack_unpack_inverse 305419896 (1, 2, 3, 4) (by norm_num)

/-- C5 counterexample: the claim says an `isize` color value that does
not fit the 32-bit packed width is truncated/reinterpreted into the
packed form rather than failing; but `as_u32` for `isize` is
`to_u32().expect(..)`, which panics (modelled `none`) at `-1` and at
`2^32` instead of producing any packed value. -/
theorem C5_counterexample :
    isize_as_u32 (-1) = none ∧ isize_as_u32 4294967296 = none := by
  constructor <;> simp [isize_as_u32, isize_to_u32]

/-- C5 (amended): for every `isize` value in `0 .. 2^32 - 1`, `as_u32`
yields that value as the packed color, identical to the `u32` form; for
every value outside that range (negative or too large) the conversion
panics via `expect` (modelled `none`) rather than truncating. -/
theorem C5_isize_as_u32 (v : Int) :
    (0 ≤ v → v < 4294967296 →
      isize_as_u32 v = some v.toNat ∧ isize_as_u32 v = some (u32_as_u32 v.toNat)) ∧
    (v < 0 ∨ 4294967296 ≤ v → isize_as_u32 v = none) := by
  unfold isize_as_u32 isize_to_u32 u32_as_u32
  constructor
  · intro h1 h2
    simp [h1, h2]
  · intro h
    rw [if_neg]
    omega

theorem C5_isize_as_u32_witness :
    isize_as_u32 305419896 = some ((305419896 : Int).toNat) ∧
    isize_as_u32 (-7) = none :=
  ⟨((C5_isize_as_u32 305419896).1 (by norm_num) (by norm_num)).1,
   (C5_isize_as_u32 (-7)).2 (Or.inl (by norm_num))⟩

/-- C7: `set_font_rotation` accepts every `u32` rotation step value —
0, 1, 2, 3 as well as out-of-range steps — and passes it to
`gfxPrimitivesSetFontRotation` unmodified and without validation. -/
theorem C7_set_font_rotation_passthrough (rotation : Nat)
    (h : rotation < 4294967296) :
    set_font_rotation rotation = rotation := by
  unfold set_font_rotation
  omega

theorem C7_set_font_rotation_passthrough_witness :
    set_font_rotation 2 = 2 ∧ set_font_rotation 7 = 7 :=
  ⟨C7_set_font_rotation_passthrough 2 (by norm_num),
   C7_set_font_rotation_passthrough 7 (by norm_num)⟩

/-- C8: `set_font` with `None` passes the null font pointer (resetting
to the default font) and with `Some v` passes `v`'s data pointer; in
both cases the cell width and height go through unchanged, and the
native call returns nothing. -/
theorem C8_set_font_pointer (v : List Nat) (cw ch : Nat) :
    set_font none cw ch = (FontPtr.null, cw, ch) ∧
    set_font (some v) cw ch = (FontPtr.data v, cw, ch) :=
  ⟨rfl, rfl⟩

/-- Any outcome produced by the shared
`if ret == 0 { Ok(()) } else { Err(get_error_as_error()) }` pattern
satisfies the status contract. -/
theorem statusOk_of_ret_branch (st : NativeState) (o : Outcome)
    (ho : o = if st.ret = 0 then Outcome.success else Outcome.failure st.lastError) :
    statusOk o st := by
  subst ho
  constructor
  · by_cases h : st.ret = 0 <;> simp [h]
  · intro h
    simp [h]

/-- C1: every `DrawRenderer` drawing primitive method returns success
exactly when the native call returned `0`, and for every nonzero status
it returns the error carrying the native last-recorded diagnostic
string captured immediately after the call (for the point-buffer and
string primitives, on the inputs that reach the foreign call). -/
theorem C1_status_contract (st : NativeState)
    (x y x1 y1 x2 y2 x3 y3 rad start end_ rx ry : Int) (width : Nat)
    (vx vy : List Int) (bs : Int) (ch : Nat) (s : List Nat) (col : Nat)
    (hlen : vx.length = vy.length) (hnul : 0 ∉ s) :
    statusOk (pixel st x y col) st ∧
    statusOk (hline st x1 x2 y col) st ∧
    statusOk (vline st x y1 y2 col) st ∧
    statusOk (rectangle st x1 y1 x2 y2 col) st ∧
    statusOk (rounded_rectangle st x1 y1 x2 y2 rad col) st ∧
    statusOk (box_ st x1 y1 x2 y2 col) st ∧
    statusOk (rounded_box st x1 y1 x2 y2 rad col) st ∧
    statusOk (line st x1 y1 x2 y2 col) st ∧
    statusOk (aa_line st x1 y1 x2 y2 col) st ∧
    statusOk (thick_line st x1 y1 x2 y2 width col) st ∧
    statusOk (circle st x y rad col) st ∧
    statusOk (aa_circle st x y rad col) st ∧
    statusOk (filled_circle st x y rad col) st ∧
    statusOk (arc st x y rad start end_ col) st ∧
    statusOk (ellipse st x y rx ry col) st ∧
    statusOk (aa_ellipse st x y rx ry col) st ∧
    statusOk (filled_ellipse st x y rx ry col) st ∧
    statusOk (pie st x y rad start end_ col) st ∧
    statusOk (filled_pie st x y rad start end_ col) st ∧
    statusOk (trigon st x1 y1 x2 y2 x3 y3 col) st ∧
    statusOk (aa_trigon st x1 y1 x2 y2 x3 y3 col) st ∧
    statusOk (filled_trigon st x1 y1 x2 y2 x3 y3 col) st ∧
    statusOk (polygon st vx vy col).1 st ∧
    statusOk (aa_polygon st vx vy col).1 st ∧
    statusOk (filled_polygon st vx vy col).1 st ∧
    statusOk (bezier st vx vy bs col).1 st ∧
    statusOk (character st x y ch col).1 st ∧
    statusOk (string st x y s col).1 st := by
  refine ⟨statusOk_of_ret_branch st _ rfl, statusOk_of_ret_branch st _ rfl,
    statusOk_of_ret_branch st _ rfl, statusOk_of_ret_branch st _ rfl,
    statusOk_of_ret_branch st _ rfl, statusOk_of_ret_branch st _ rfl,
    statusOk_of_ret_branch st _ rfl, statusOk_of_ret_branch st _ rfl,
    statusOk_of_ret_branch st _ rfl, statusOk_of_ret_branch st _ rfl,
    statusOk_of_ret_branch st _ rfl, statusOk_of_ret_branch st _ rfl,
    statusOk_of_ret_branch st _ rfl, statusOk_of_ret_branch st _ rfl,
    statusOk_of_ret_branch st _ rfl, statusOk_of_ret_branch st _ rfl,
    statusOk_of_ret_branch st _ rfl, statusOk_of_ret_branch st _ rfl,
    statusOk_of_ret_branch st _ rfl, statusOk_of_ret_branch st _ rfl,
    statusOk_of_ret_branch st _ rfl, statusOk_of_ret_branch st _ rfl,
    statusOk_of_ret_branch st _ (by simp [polygon, hlen]),
    statusOk_of_ret_branch st _ (by simp [aa_polygon, hlen]),
    statusOk_of_ret_branch st _ (by simp [filled_polygon, hlen]),
    statusOk_of_ret_branch st _ (by simp [bezier, hlen]),
    statusOk_of_ret_branch st _ rfl,
    statusOk_of_ret_branch st _ (by simp [string, hnul])⟩

theorem C1_status_contract_witness :
    statusOk (pixel ⟨1, "e"⟩ 0 0 0) ⟨1, "e"⟩ ∧
    statusOk (hline ⟨1, "e"⟩ 0 0 0 0) ⟨1, "e"⟩ ∧
    statusOk (vline ⟨1, "e"⟩ 0 0 0 0) ⟨1, "e"⟩ ∧
    statusOk (rectangle ⟨1, "e"⟩ 0 0 0 0 0) ⟨1, "e"⟩ ∧
    statusOk (rounded_rectangle ⟨1, "e"⟩ 0 0 0 0 0 0) ⟨1, "e"⟩ ∧
    statusOk (box_ ⟨1, "e"⟩ 0 0 0 0 0) ⟨1, "e"⟩ ∧
    statusOk (rounded_box ⟨1, "e"⟩ 0 0 0 0 0 0) ⟨1, "e"⟩ ∧
    statusOk (line ⟨1, "e"⟩ 0 0 0 0 0) ⟨1, "e"⟩ ∧
    statusOk (aa_line ⟨1, "e"⟩ 0 0 0 0 0) ⟨1, "e"⟩ ∧
    statusOk (thick_line ⟨1, "e"⟩ 0 0 0 0 0 0) ⟨1, "e"⟩ ∧
    statusOk (circle ⟨1, "e"⟩ 0 0 0 0) ⟨1, "e"⟩ ∧
    statusOk (aa_circle ⟨1, "e"⟩ 0 0 0 0) ⟨1, "e"⟩ ∧
    statusOk (filled_circle ⟨1, "e"⟩ 0 0 0 0) ⟨1, "e"⟩ ∧
    statusOk (arc ⟨1, "e"⟩ 0 0 0 0 0 0) ⟨1, "e"⟩ ∧
    statusOk (ellipse ⟨1, "e"⟩ 0 0 0 0 0) ⟨1, "e"⟩ ∧
    statusOk (aa_ellipse ⟨1, "e"⟩ 0 0 0 0 0) ⟨1, "e"⟩ ∧
    statusOk (filled_ellipse ⟨1, "e"⟩ 0 0 0 0 0) ⟨1, "e"⟩ ∧
    statusOk (pie ⟨1, "e"⟩ 0 0 0 0 0 0) ⟨1, "e"⟩ ∧
    statusOk (filled_pie ⟨1, "e"⟩ 0 0 0 0 0 0) ⟨1, "e"⟩ ∧
    statusOk (trigon ⟨1, "e"⟩ 0 0 0 0 0 0 0) ⟨1, "e"⟩ ∧
    statusOk (aa_trigon ⟨1, "e"⟩ 0 0 0 0 0 0 0) ⟨1, "e"⟩ ∧
    statusOk (filled_trigon ⟨1, "e"⟩ 0 0 0 0 0 0 0) ⟨1, "e"⟩ ∧
    statusOk (polygon ⟨1, "e"⟩ [0] [0] 0).1 ⟨1, "e"⟩ ∧
    statusOk (aa_polygon ⟨1, "e"⟩ [0] [0] 0).1 ⟨1, "e"⟩ ∧
    statusOk (filled_polygon ⟨1, "e"⟩ [0] [0] 0).1 ⟨1, "e"⟩ ∧
    statusOk (bezier ⟨1, "e"⟩ [0] [0] 0 0).1 ⟨1, "e"⟩ ∧
    statusOk (character ⟨1, "e"⟩ 0 0 0 0).1 ⟨1, "e"⟩ ∧
    statusOk (string ⟨1, "e"⟩ 0 0 [72] 0).1 ⟨1, "e"⟩ :=
  C1_status_contract ⟨1, "e"⟩ 0 0 0 0 0 0 0 0 0 0 0 0 0 0 [0] [0] 0 0 [72] 0
    rfl (by decide)

/-- C3: with mismatched coordinate-slice lengths, each point-buffer
primitive (`polygon`, `aa_polygon`, `filled_polygon`, `bezier`) panics
on the `assert_eq!` length check before issuing any foreign call (the
foreign-call counter stays 0). -/
theorem C3_length_mismatch_fails_fast (st : NativeState) (vx vy : List Int)
    (bs : Int) (col : Nat) (h : vx.length ≠ vy.length) :
    polygon st vx vy col = (Outcome.panicAssertEq, 0) ∧
    aa_polygon st vx vy col = (Outcome.panicAssertEq, 0) ∧
    filled_polygon st vx vy col = (Outcome.panicAssertEq, 0) ∧
    bezier st vx vy bs col = (Outcome.panicAssertEq, 0) := by
  simp [polygon, aa_polygon, filled_polygon, bezier, h]

theorem C3_length_mismatch_fails_fast_witness :
    polygon ⟨0, ""⟩ [0, 1, 2] [0, 1] 0 = (Outcome.panicAssertEq, 0) ∧
    aa_polygon ⟨0, ""⟩ [0, 1, 2] [0, 1] 0 = (Outcome.panicAssertEq, 0) ∧
    filled_polygon ⟨0, ""⟩ [0, 1, 2] [0, 1] 0 = (Outcome.panicAssertEq, 0) ∧
    bezier ⟨0, ""⟩ [0, 1, 2] [0, 1] 0 0 = (Outcome.panicAssertEq, 0) :=
  C3_length_mismatch_fails_fast ⟨0, ""⟩ [0, 1, 2] [0, 1] 0 0 (by decide)

/-- C4: for every input, `textured_polygon` yields the explicit
`unimplemented!()` signal — never success, never a silent no-op (it
issues no foreign call and signals explicitly). -/
theorem C4_textured_polygon_unimplemented (st : NativeState) (vx vy : List Int)
    (texture : Surface) (dx dy : Int) (col : Nat) :
    textured_polygon st vx vy texture dx dy col = (Outcome.panicUnimplemented, 0) ∧
    (textured_polygon st vx vy texture dx dy col).1 ≠ Outcome.success :=
  ⟨rfl, by simp [textured_polygon]⟩

/-- Appending the NUL terminator makes the last byte of the buffer 0. -/
theorem getLast_append_zero (s : List Nat) : (s ++ [0]).getLast? = some 0 := by
  rw [List.getLast?_append_of_ne_nil s (by simp)]
  rfl

/-- C6: `string` converts the text to a NUL-terminated byte buffer
before the foreign call (the buffer passed is the text's bytes followed
by the 0 terminator), and for text with an embedded NUL byte it panics
deterministically in `CString::new(..).unwrap()` before any foreign
call. -/
theorem C6_string_nul_handling (st : NativeState) (x y : Int) (s : List Nat)
    (col : Nat) :
    (0 ∈ s → string st x y s col = (Outcome.panicNulError, [])) ∧
    (0 ∉ s →
      (string st x y s col).2 = [s ++ [0]] ∧
      ∀ buf ∈ (string st x y s col).2, buf.getLast? = some 0) := by
  constructor
  · intro h
    simp [string, h]
  · intro h
    refine ⟨by simp [string, h], ?_⟩
    intro buf hbuf
    simp [string, h] at hbuf
    subst hbuf
    exact getLast_append_zero s

theorem C6_string_nul_handling_witness :
    string ⟨0, ""⟩ 0 0 [72, 0] 0 = (Outcome.panicNulError, []) ∧
    ((string ⟨0, ""⟩ 0 0 [72, 105] 0).2 = [[72, 105] ++ [0]] ∧
      ∀ buf ∈ (string ⟨0, ""⟩ 0 0 [72, 105] 0).2, buf.getLast? = some 0) :=
  ⟨(C6_string_nul_handling ⟨0, ""⟩ 0 0 [72, 0] 0).1 (by decide),
   (C6_string_nul_handling ⟨0, ""⟩ 0 0 [72, 105] 0).2 (by decide)⟩

/-- C10: `character` accepts every char without rejection (its outcome
is exactly the shared status branch, with no panic path), and the
character argument passed to the foreign call is `c as c_char`: the
Unicode scalar value truncated modulo 2^8 and reinterpreted as a signed
8-bit value, so code points above 255 are silently truncated to their
low byte. -/
theorem C10_character_truncation (st : NativeState) (x y : Int) (c : Nat)
    (col : Nat) :
    character st x y c col =
      (if st.ret = 0 then Outcome.success else Outcome.failure st.lastError,
       char_as_c_char c) ∧
    char_as_c_char c = char_as_c_char (c % 256) ∧
    -128 ≤ char_as_c_char c ∧ char_as_c_char c < 128 ∧
    char_as_c_char c % 256 = ((c % 256 : Nat) : Int) := by
  refine ⟨rfl, ?_, ?_, ?_, ?_⟩ <;>
    · unfold char_as_c_char
      split_ifs <;> omega

end Gfx
